import Mathlib

/-!
Verification of the Interview Session Orchestration Engine
(`interwiz-backend`): a shallow embedding of the conversation state
machine, follow-up policy, score aggregation, proctoring trust score and
session registry, with theorems settling the specification's claims.

Conventions of the embedding:
* JavaScript objects/maps become Lean structures and association lists
  (insertion-ordered, as `Object.entries`/`Map` iteration is).
* The external collaborators (OpenAI-backed evaluation and chat calls)
  are modelled as explicit inputs: an `Option` carries the success or
  failure of the underlying call, mirroring the `try/catch` in the code.
* JavaScript numbers holding scores are modelled as `Int`
  (all score arithmetic in the code is integral except the division in
  `Math.round(x/y)`, modelled exactly by `jsRound`).
-/

/-- `s.includes(sub)` on JavaScript strings, here on `List Char`:
`listHasPrefix cs sub` is "`sub` is a prefix of `cs`". -/
def listHasPrefix : List Char → List Char → Bool
  | _, [] => true
  | [], _ :: _ => false
  | c :: cs, d :: ds => c == d && listHasPrefix cs ds

/-- `sub` occurs as a contiguous substring of `cs`. -/
def listContainsSub : List Char → List Char → Bool
  | [], sub => sub.isEmpty
  | c :: cs, sub => listHasPrefix (c :: cs) sub || listContainsSub cs sub

/-- JavaScript `s.includes(sub)`. -/
def strIncludes (s sub : String) : Bool :=
  listContainsSub s.toList sub.toList

/-- JavaScript `s.toLowerCase()` (ASCII case folding, which is all the
scanned keyword tokens need), implemented on the character list so that
it is kernel-executable. -/
def jsToLower (s : String) : String :=
  String.mk (s.toList.map Char.toLower)

/-- JavaScript `Math.round(num/den)` for integer `num` and positive
integer `den`: round half toward positive infinity. -/
def jsRound (num : Int) (den : Int) : Int :=
  Int.fdiv (2 * num + den) (2 * den)

/-! ### Data model (interview-state.interface.ts / prisma schema) -/

/-- A question of an assessment (only the fields the orchestration logic
reads: `id` and `text`). -/
structure Question where
  id : String
  text : String
deriving Repr, DecidableEq

/-- `EvaluationResult` returned by the evaluator collaborator. -/
structure EvaluationResult where
  score : Int
  strengths : List String
  weaknesses : List String
  recommendation : String
  reasoning : String
deriving Repr, DecidableEq

/-- One entry of `ConversationContext.responses`. -/
structure ResponseRecord where
  text : String
  score : Int
  followUpsAsked : Nat
  evaluation : String
deriving Repr, DecidableEq

/-- One entry of `template.assessments`: the join row carrying the
assessment id and weight together with the assessment's questions. -/
structure TemplateAssessment where
  assessmentId : String
  name : String
  weight : Int
  questions : List Question
deriving Repr, DecidableEq

/-- `ConversationContext` of `conversation-manager.service.ts`.
`conversationHistory` entries are (role, content) pairs; `responses` is
an insertion-ordered association list keyed by question id. -/
structure ConversationContext where
  sessionId : String
  interviewId : String
  assessments : List TemplateAssessment
  currentAssessmentIndex : Nat
  currentQuestionIndex : Nat
  conversationHistory : List (String × String)
  responses : List (String × ResponseRecord)
deriving Repr, DecidableEq

/-! ### ResponseEvaluatorService -/

/-- The fallback `EvaluationResult` returned when the OpenAI call inside
`evaluateResponse` throws (`catch` branch, response-evaluator.service.ts). -/
def fallbackEvaluation : EvaluationResult :=
  { score := 50
    strengths := ["Response provided"]
    weaknesses := ["Unable to fully evaluate"]
    recommendation := "maybe"
    reasoning := "Evaluation service temporarily unavailable" }

/-- `ResponseEvaluatorService.evaluateResponse`, with the outcome of the
OpenAI JSON call passed in (`none` = the call threw). On success the
score is clamped into [0,100] when out of range. -/
def evaluateResponse (aiResult : Option EvaluationResult) : EvaluationResult :=
  match aiResult with
  | some evaluation =>
      if evaluation.score < 0 ∨ evaluation.score > 100 then
        { evaluation with score := max 0 (min 100 evaluation.score) }
      else evaluation
  | none => fallbackEvaluation

/-- The weakness scan of `needsFollowUp`: some weakness mentions
"unclear", "vague" or "specific" (case-insensitive substring). -/
def weaknessNeedsClarification (weaknesses : List String) : Bool :=
  weaknesses.any fun w =>
    strIncludes (jsToLower w) "unclear" ||
    strIncludes (jsToLower w) "vague" ||
    strIncludes (jsToLower w) "specific"

/-- `ResponseEvaluatorService.needsFollowUp` (the async wrapper never
awaits; it is a pure decision function). -/
def needsFollowUp (evaluation : EvaluationResult)
    (followUpsAlreadyAsked : Nat) (responseLength : Nat) : Bool :=
  if 2 ≤ followUpsAlreadyAsked then false
  else if evaluation.score < 50 ∧ followUpsAlreadyAsked < 1 then true
  else if responseLength < 50 ∧ followUpsAlreadyAsked < 1 then true
  else if weaknessNeedsClarification evaluation.weaknesses = true ∧
      followUpsAlreadyAsked < 1 then true
  else false

/-- `ResponseEvaluatorService.generateEvaluationText`. -/
def generateEvaluationText (evaluation : EvaluationResult) : String :=
  let parts : List String :=
    (if evaluation.strengths.length > 0 then
      ["Strengths: " ++ String.intercalate ", " evaluation.strengths]
     else []) ++
    (if evaluation.weaknesses.length > 0 then
      ["Areas for improvement: " ++ String.intercalate ", " evaluation.weaknesses]
     else []) ++
    ["Score: " ++ toString evaluation.score ++ "/100",
     "Reasoning: " ++ evaluation.reasoning]
  String.intercalate "\n" parts

/-! ### Proctoring trust score (interview-session.manager.ts) -/

/-- The `proctorData` blob consumed by `calculateTrustScore`:
`faceDetections` holds the `facesDetected` count of each face-detection
event; `tabSwitches` and `fullscreenExits` are event counters (the code
reads them with `|| 0`, so an absent field is 0); `suspiciousActivity`
is the list of suspicious-activity entries. -/
structure ProctorData where
  faceDetections : List Int
  tabSwitches : Int
  fullscreenExits : Int
  suspiciousActivity : List String
deriving Repr, DecidableEq

/-- `InterviewGateway.calculateTrustScore`. `Math.round` is the identity
here since every operand is integral. -/
def calculateTrustScore (proctorData : ProctorData) : Int :=
  let score : Int := 100
  let score := score -
    ((proctorData.faceDetections.filter (fun fd => fd > 1)).length : Int) * 5
  let score := score - proctorData.tabSwitches * 3
  let score := score - proctorData.fullscreenExits * 10
  let score := score - (proctorData.suspiciousActivity.length : Int) * 15
  max 0 (min 100 score)

/-! ### Session registry (interview-session.manager.ts / gateway) -/

/-- The registry entry for one live interview session (the fields the
join/observe/leave logic touches). -/
structure RegistrySession where
  id : String
  interviewId : String
  candidateSocketId : String
  recruiterSocketIds : List String
  isActive : Bool
deriving Repr, DecidableEq

/-- `InterviewSessionManager.addRecruiterObserver`: push the socket id
onto `recruiterSocketIds` unless it is already present. -/
def addRecruiterObserver (session : RegistrySession) (socketId : String) :
    RegistrySession :=
  if session.recruiterSocketIds.contains socketId then session
  else { session with recruiterSocketIds := session.recruiterSocketIds ++ [socketId] }

/-- The candidate-join step of `InterviewGateway.handleJoinInterview`:
if a session for the interview already exists, overwrite its
`candidateSocketId` with the joining socket (no error path); otherwise
create a fresh session for this candidate (`createSession`). -/
def joinAsCandidate (existing : Option RegistrySession)
    (sessionId interviewId socketId : String) : RegistrySession :=
  match existing with
  | some session => { session with candidateSocketId := socketId }
  | none =>
      { id := sessionId
        interviewId := interviewId
        candidateSocketId := socketId
        recruiterSocketIds := []
        isActive := false }

/-! ### ConversationManagerService -/

/-- Lookup in the `responses` map. -/
def lookupResponse (responses : List (String × ResponseRecord)) (qid : String) :
    Option ResponseRecord :=
  (responses.find? fun p => p.1 == qid).map (·.2)

/-- `context.responses[questionId] = record`: overwrite the existing
entry, or append a new one (JS object keys keep insertion order). -/
def setResponse (responses : List (String × ResponseRecord)) (qid : String)
    (record : ResponseRecord) : List (String × ResponseRecord) :=
  if (responses.find? fun p => p.1 == qid).isSome then
    responses.map fun p => if p.1 == qid then (qid, record) else p
  else responses ++ [(qid, record)]

/-- The list of questions of assessment `i` of the template
(`template.assessments[i].assessment.questions || []`). -/
def questionsAt (ctx : ConversationContext) (i : Nat) : List Question :=
  ((ctx.assessments.get? i).map (·.questions)).getD []

/-- `ConversationManagerService.getCurrentQuestion`: `none` once the
assessment cursor is past the end, or the question cursor is past the
current assessment's questions. -/
def getCurrentQuestion (ctx : ConversationContext) : Option Question :=
  if ctx.currentAssessmentIndex ≥ ctx.assessments.length then none
  else (questionsAt ctx ctx.currentAssessmentIndex).get? ctx.currentQuestionIndex

/-- `ConversationManagerService.addMessage` restricted to the context it
mutates. -/
def addMessageCtx (ctx : ConversationContext) (role content : String) :
    ConversationContext :=
  { ctx with conversationHistory := ctx.conversationHistory ++ [(role, content)] }

/-- `ConversationManagerService.moveToNextQuestion`: advance the
question cursor; on exhausting the current assessment move to the next
assessment at question 0; the returned flag is "interview complete".
(The service is only invoked with the cursor on a real question, so the
`[]` default for an out-of-range assessment index never fires there.) -/
def moveToNextQuestion (ctx : ConversationContext) :
    Bool × ConversationContext :=
  let questions := questionsAt ctx ctx.currentAssessmentIndex
  let ctx := { ctx with currentQuestionIndex := ctx.currentQuestionIndex + 1 }
  if ctx.currentQuestionIndex ≥ questions.length then
    let ctx := { ctx with
      currentAssessmentIndex := ctx.currentAssessmentIndex + 1
      currentQuestionIndex := 0 }
    if ctx.currentAssessmentIndex ≥ ctx.assessments.length then
      (true, ctx)
    else (false, ctx)
  else (false, ctx)

/-- Progress record returned to the caller (1-based for display). -/
structure Progress where
  currentAssessment : Nat
  totalAssessments : Nat
  currentQuestion : Nat
  totalQuestions : Nat
deriving Repr, DecidableEq

/-- `ConversationManagerService.getProgress`. -/
def getProgress (ctx : ConversationContext) : Progress :=
  { currentAssessment := ctx.currentAssessmentIndex + 1
    totalAssessments := ctx.assessments.length
    currentQuestion := ctx.currentQuestionIndex + 1
    totalQuestions := (questionsAt ctx ctx.currentAssessmentIndex).length }

/-! ### InterviewOrchestratorService.processResponse -/

/-- The outcome of one collaborator round used by `processResponse`:
the result of the evaluator's OpenAI call (`none` = the call threw, the
`catch` substitutes `fallbackEvaluation`), and the texts produced by the
chat collaborator for a follow-up prompt, an assessment-transition line
and the adapted next question. -/
structure Collab where
  aiEval : Option EvaluationResult
  followUpText : String
  transitionText : String
  adaptedNextText : String
deriving Repr, DecidableEq

/-- `response`/`nextQuestion`/`isComplete`/`progress` record returned by
`processResponse` (`InterviewTurn`). -/
structure TurnResponse where
  text : String
  score : Int
  evaluation : String
deriving Repr, DecidableEq

structure InterviewTurn where
  response : TurnResponse
  nextQuestion : Option Question
  isComplete : Bool
  progress : Progress
deriving Repr, DecidableEq

/-- `InterviewOrchestratorService.handleInterviewComplete`: the
defensive turn returned when the cursor is already past the plan. -/
def handleInterviewCompleteTurn : InterviewTurn :=
  { response := { text := "", score := 0, evaluation := "" }
    nextQuestion := none
    isComplete := true
    progress := { currentAssessment := 0, totalAssessments := 0,
                  currentQuestion := 0, totalQuestions := 0 } }

/-- The cursor-advancing tail of `processResponse`'s no-follow-up
branch (`moveToNextQuestion` through the adapted-next-question message):
advance the cursor, then — unless the interview completed or the new
assessment has no current question — append the transition/adapted chat
messages. Returns the `isComplete` flag with the final stored context.
In the source every `getContext` call returns the same stored object, so
after `moveToNextQuestion` the local variables `context` and
`updatedContext` alias one mutated record; the transition-message guard
`updatedContext.currentAssessmentIndex > context.currentAssessmentIndex`
therefore compares the record with itself and never fires. -/
def advanceAfterResponse (collab : Collab) (ctxB : ConversationContext) :
    Bool × ConversationContext :=
  let step := moveToNextQuestion ctxB
  let isComplete := step.1
  let ctx2 := step.2
  if isComplete then (isComplete, ctx2)
  else
    match getCurrentQuestion ctx2 with
    | none => (isComplete, ctx2)
    | some _ =>
        let ctx2 :=
          if ctx2.currentAssessmentIndex > ctx2.currentAssessmentIndex
          then addMessageCtx ctx2 "assistant" collab.transitionText
          else ctx2
        (isComplete, addMessageCtx ctx2 "assistant" collab.adaptedNextText)

/-- `InterviewOrchestratorService.processResponse`, returning the
`InterviewTurn` and the conversation state left in the session store. -/
def processResponse (collab : Collab) (ctx : ConversationContext)
    (responseText : String) : InterviewTurn × ConversationContext :=
  -- addMessage(sessionId, 'user', responseText)
  let ctx := addMessageCtx ctx "user" responseText
  match getCurrentQuestion ctx with
  | none => (handleInterviewCompleteTurn, ctx)
  | some currentQuestion =>
      let evaluation := evaluateResponse collab.aiEval
      -- existing tracking entry, or a fresh one for this answer
      let existingResponse := (lookupResponse ctx.responses currentQuestion.id).getD
        { text := responseText
          score := evaluation.score
          followUpsAsked := 0
          evaluation := generateEvaluationText evaluation }
      let turnResponse : TurnResponse :=
        { text := responseText
          score := evaluation.score
          evaluation := generateEvaluationText evaluation }
      if needsFollowUp evaluation existingResponse.followUpsAsked
          responseText.length then
        let updated := { existingResponse with
          followUpsAsked := existingResponse.followUpsAsked + 1 }
        let ctx := { ctx with
          responses := setResponse ctx.responses currentQuestion.id updated }
        let ctx := addMessageCtx ctx "assistant" collab.followUpText
        ({ response := turnResponse
           nextQuestion := some { currentQuestion with text := collab.followUpText }
           isComplete := false
           progress := getProgress ctx }, ctx)
      else
        let ctxB := { ctx with
          responses := setResponse ctx.responses currentQuestion.id existingResponse }
        let adv := advanceAfterResponse collab ctxB
        let isComplete := adv.1
        let ctx3 := adv.2
        let nextQuestion : Option Question :=
          if isComplete then none
          else (getCurrentQuestion (moveToNextQuestion ctxB).2).map
            fun q => { q with text := collab.adaptedNextText }
        ({ response := turnResponse
           nextQuestion := nextQuestion
           isComplete := isComplete
           progress := getProgress ctx3 }, ctx3)

/-! ### InterviewOrchestratorService.completeInterview -/

/-- `Math.round` of the mean of `scores.length > 0` response scores,
with the `: 0` default of the source for an empty list. -/
def overallScoreOf (responses : List (String × ResponseRecord)) : Int :=
  let scores := responses.map fun p => p.2.score
  if scores.length > 0 then
    jsRound (scores.foldl (· + ·) 0) (scores.length : Int)
  else 0

/-- The `responses` entries whose question belongs to template
assessment `ta` (the `Object.entries(...).filter` of the source). -/
def assessmentResponsesOf (responses : List (String × ResponseRecord))
    (ta : TemplateAssessment) : List (String × ResponseRecord) :=
  responses.filter fun p => ta.questions.any fun q => q.id == p.1

/-- The `scoreBreakdown` record built by `completeInterview`: one entry
per template assessment with at least one recorded response, holding the
rounded mean of those responses' scores. -/
def scoreBreakdownOf (assessments : List TemplateAssessment)
    (responses : List (String × ResponseRecord)) : List (String × Int) :=
  assessments.foldl
    (fun acc ta =>
      let assessmentResponses := assessmentResponsesOf responses ta
      if assessmentResponses.length > 0 then
        acc ++ [(ta.assessmentId,
          jsRound (assessmentResponses.foldl (fun s p => s + p.2.score) 0)
            (assessmentResponses.length : Int))]
      else acc)
    []

/-- State of the line-by-line parser of the closing narrative. -/
structure SummaryParseState where
  currentSection : String
  strengths : List String
  weaknesses : List String
  insights : List String
  recommendation : String
deriving Repr, DecidableEq

/-- Drop leading JavaScript-whitespace characters. -/
def dropLeadingWS (cs : List Char) : List Char :=
  cs.dropWhile Char.isWhitespace

/-- JavaScript `s.trim()`. -/
def jsTrim (s : String) : String :=
  String.mk ((dropLeadingWS ((dropLeadingWS s.toList).reverse)).reverse)

/-- JavaScript `s.startsWith(pre)`. -/
def jsStartsWith (s pre : String) : Bool :=
  listHasPrefix s.toList pre.toList

/-- JavaScript `summary.split('\n')` (splitting never drops empty
pieces). -/
def splitNewlineChars (cs : List Char) : List (List Char) :=
  cs.foldr
    (fun c acc =>
      match acc with
      | [] => if c == '\n' then [[], []] else [[c]]
      | piece :: rest => if c == '\n' then [] :: piece :: rest
        else (c :: piece) :: rest)
    [[]]

def jsSplitNewline (s : String) : List String :=
  (splitNewlineChars s.toList).map String.mk

/-- `line.replace(/^[-•]\s*_/, '')` (with `_` read as nothing): strip one
leading dash or bullet plus following whitespace, if present. -/
def stripLeadingBullet (cs : List Char) : List Char :=
  match cs with
  | c :: rest => if c == '-' || c == '•' then dropLeadingWS rest else c :: rest
  | [] => []

/-- `line.replace(/^\d+\.\s*_/, '')` (with `_` read as nothing): strip a
leading run of digits followed by a dot and whitespace, if present. -/
def stripLeadingNumberDot (cs : List Char) : List Char :=
  let digits := cs.takeWhile Char.isDigit
  if digits.length > 0 then
    match cs.drop digits.length with
    | '.' :: rest => dropLeadingWS rest
    | _ => cs
  else cs

/-- `line.trim().match(/^\d+\./)` is non-null. -/
def startsWithNumberDot (s : String) : Bool :=
  let cs := s.toList
  let digits := cs.takeWhile Char.isDigit
  digits.length > 0 && (cs.drop digits.length).head? == some '.'

/-- One iteration of the `for (const line of lines)` parsing loop in
`completeInterview`. -/
def parseSummaryLine (st : SummaryParseState) (line : String) :
    SummaryParseState :=
  let lower := jsToLower line
  if strIncludes lower "strength" then { st with currentSection := "strengths" }
  else if strIncludes lower "weakness" then
    { st with currentSection := "weaknesses" }
  else if strIncludes lower "recommendation" then
    if strIncludes lower "hire" && !(strIncludes lower "no") then
      { st with recommendation := "hire" }
    else if strIncludes lower "no-hire" then
      { st with recommendation := "no-hire" }
    else st
  else if strIncludes lower "insight" then { st with currentSection := "insights" }
  else if jsStartsWith (jsTrim line) "-" || startsWithNumberDot (jsTrim line) then
    let item :=
      jsTrim (String.mk (stripLeadingNumberDot (stripLeadingBullet line.toList)))
    if st.currentSection == "strengths" && item != "" then
      { st with strengths := st.strengths ++ [item] }
    else if st.currentSection == "weaknesses" && item != "" then
      { st with weaknesses := st.weaknesses ++ [item] }
    else if st.currentSection == "insights" && item != "" then
      { st with insights := st.insights ++ [item] }
    else st
  else st

/-- The whole narrative-parsing block: feed each line of the chat
summary to `parseSummaryLine`, starting from empty sections and the
`maybe` recommendation. -/
def parseSummary (summary : String) : SummaryParseState :=
  (jsSplitNewline summary).foldl parseSummaryLine
    { currentSection := ""
      strengths := []
      weaknesses := []
      insights := []
      recommendation := "maybe" }

/-- `InterviewSummary` returned by `completeInterview`. -/
structure InterviewSummary where
  interviewId : String
  overallScore : Int
  scoreBreakdown : List (String × Int)
  evaluation : String
  strengths : List String
  weaknesses : List String
  recommendation : String
  insights : List String
deriving Repr, DecidableEq

/-- The session store of `ConversationManagerService`
(`sessionStore : Map<string, ConversationContext>`). -/
def SessionStore := List (String × ConversationContext)
deriving DecidableEq

/-- `sessionStore.get(sessionId)`. -/
def storeGet (store : SessionStore) (sessionId : String) :
    Option ConversationContext :=
  ((store : List (String × ConversationContext)).find?
    fun p => p.1 == sessionId).map (·.2)

/-- `sessionStore.delete(sessionId)` (`deleteSession`). -/
def storeDelete (store : SessionStore) (sessionId : String) : SessionStore :=
  (store : List (String × ConversationContext)).filter
    fun p => !(p.1 == sessionId)

/-- `InterviewOrchestratorService.completeInterview`, with the outcome
of the chat collaborator's narrative call passed in (`none` = the call
threw; the `catch` substitutes `'Summary generation failed'` and leaves
all parsed fields at their defaults). `getContext` throwing
`NotFoundException` becomes the `Except.error` branch; the returned
store reflects the final `deleteSession`. -/
def completeInterview (chatResult : Option String) (store : SessionStore)
    (sessionId : String) :
    Except String (InterviewSummary × SessionStore) :=
  match storeGet store sessionId with
  | none => Except.error "Session not found or expired"
  | some context =>
      let overallScore := overallScoreOf context.responses
      let scoreBreakdown := scoreBreakdownOf context.assessments context.responses
      let parsed :=
        match chatResult with
        | some summary => (summary, parseSummary summary)
        | none =>
            ("Summary generation failed",
             { currentSection := ""
               strengths := []
               weaknesses := []
               insights := []
               recommendation := "maybe" })
      let st := parsed.2
      Except.ok
        ({ interviewId := context.interviewId
           overallScore := overallScore
           scoreBreakdown := scoreBreakdown
           evaluation := parsed.1
           strengths :=
             if st.strengths.length > 0 then st.strengths
             else ["No specific strengths identified"]
           weaknesses :=
             if st.weaknesses.length > 0 then st.weaknesses
             else ["No major weaknesses identified"]
           recommendation := st.recommendation
           insights :=
             if st.insights.length > 0 then st.insights
             else ["Continue evaluation process"] },
         storeDelete store sessionId)

/-! ### The specification's overall-score formula (for claim C1)

The spec prescribes a weighted average renormalized over answered
assessments; the following definition is written from the spec's words
(§4.3), to be compared with `overallScoreOf` above. -/

/-- Exact (unreduced) fractions over `Int`, used to state the spec's
formula with executable arithmetic. -/
structure Frac where
  num : Int
  den : Int
deriving Repr, DecidableEq

def Frac.add (x y : Frac) : Frac :=
  ⟨x.num * y.den + y.num * x.den, x.den * y.den⟩

def Frac.mul (x y : Frac) : Frac :=
  ⟨x.num * y.num, x.den * y.den⟩

def Frac.div (x y : Frac) : Frac :=
  ⟨x.num * y.den, x.den * y.num⟩

/-- Round the fraction to the nearest integer, half toward positive
infinity (`Math.round`'s convention): `⌊x + 1/2⌋`. -/
def Frac.round (x : Frac) : Int :=
  if x.den < 0 then jsRound (-x.num) (-x.den) else jsRound x.num x.den

/-- The exact value of a fraction, for relating the executable spec
formula to ordinary rational arithmetic. -/
def Frac.toRat (x : Frac) : ℚ := (x.num : ℚ) / (x.den : ℚ)

/-- Per-assessment score as the spec words it: the exact arithmetic mean
of the recorded scores of the assessment's questions. -/
def specAssessmentMean (responses : List (String × ResponseRecord))
    (ta : TemplateAssessment) : Frac :=
  let rs := assessmentResponsesOf responses ta
  ⟨(rs.map fun p => p.2.score).foldl (· + ·) 0, (rs.length : Int)⟩

/-- The spec's overall score:
`Σ(assessmentScore × weight/100) / Σ(weight/100 over assessments with ≥1
scored question)`, rounded to the nearest integer. -/
def specOverallScore (assessments : List TemplateAssessment)
    (responses : List (String × ResponseRecord)) : Int :=
  let answered := assessments.filter
    fun ta => (assessmentResponsesOf responses ta).length > 0
  let num : Frac := (answered.map
    fun ta => (specAssessmentMean responses ta).mul ⟨ta.weight, 100⟩).foldl
      Frac.add ⟨0, 1⟩
  let den : Frac := (answered.map
    fun ta => (⟨ta.weight, 100⟩ : Frac)).foldl Frac.add ⟨0, 1⟩
  (num.div den).round

/-! ### Helper lemmas about the embedded operations -/

theorem needsFollowUp_eq (e : EvaluationResult) (n len : Nat) :
    needsFollowUp e n len =
      (decide (n < 1) &&
        (decide (e.score < 50) || decide (len < 50) ||
          weaknessNeedsClarification e.weaknesses)) := by
  unfold needsFollowUp
  by_cases hw : weaknessNeedsClarification e.weaknesses = true <;>
    split_ifs with h1 h2 h3 h4 <;> simp_all <;> omega

theorem needsFollowUp_true_eq_zero {e : EvaluationResult} {n len : Nat}
    (h : needsFollowUp e n len = true) : n = 0 := by
  rw [needsFollowUp_eq] at h
  simp only [Bool.and_eq_true, decide_eq_true_eq] at h
  omega

theorem find?_map_set (rs : List (String × ResponseRecord)) (qid : String)
    (r : ResponseRecord) :
    List.find? (fun p => p.1 == qid)
        (rs.map fun p => if p.1 == qid then (qid, r) else p) =
      if (rs.find? fun p => p.1 == qid).isSome then some (qid, r) else none := by
  induction rs with
  | nil => simp
  | cons p ps ih =>
    simp only [List.map_cons]
    by_cases hp : p.1 == qid
    · rw [if_pos hp]
      rw [@List.find?_cons_of_pos _ (fun p => p.1 == qid) (qid, r) _ (by simp),
        @List.find?_cons_of_pos _ (fun p => p.1 == qid) p _ hp]
      simp
    · rw [if_neg hp]
      rw [@List.find?_cons_of_neg _ (fun p => p.1 == qid) p _ hp,
        @List.find?_cons_of_neg _ (fun p => p.1 == qid) p _ hp, ih]

theorem lookupResponse_setResponse_self (rs : List (String × ResponseRecord))
    (qid : String) (r : ResponseRecord) :
    lookupResponse (setResponse rs qid r) qid = some r := by
  unfold lookupResponse setResponse
  split_ifs with h
  · rw [find?_map_set]
    simp [h]
  · rw [List.find?_append]
    cases hf : rs.find? fun p => p.1 == qid with
    | some v => simp [hf] at h
    | none =>
      have hone : List.find? (fun p => p.1 == qid) [(qid, r)] = some (qid, r) :=
        @List.find?_cons_of_pos _ (fun p => p.1 == qid) (qid, r) [] (by simp)
      simp [hone]

theorem mem_setResponse {rs : List (String × ResponseRecord)} {qid : String}
    {r : ResponseRecord} {p : String × ResponseRecord}
    (h : p ∈ setResponse rs qid r) : p = (qid, r) ∨ p ∈ rs := by
  unfold setResponse at h
  split_ifs at h
  · rcases List.mem_map.mp h with ⟨q, hq, heq⟩
    by_cases hqid : q.1 == qid
    · simp [hqid] at heq; left; exact heq.symm
    · simp [hqid] at heq; right; exact heq ▸ hq
  · rcases List.mem_append.mp h with h' | h'
    · right; exact h'
    · left; simpa using h'

theorem lookupResponse_mem {rs : List (String × ResponseRecord)} {qid : String}
    {r : ResponseRecord} (h : lookupResponse rs qid = some r) :
    ∃ k, (k, r) ∈ rs := by
  unfold lookupResponse at h
  cases hf : rs.find? fun p => p.1 == qid with
  | none => simp [hf] at h
  | some v =>
    simp only [hf, Option.map_some'] at h
    refine ⟨v.1, ?_⟩
    have hv := List.mem_of_find?_eq_some hf
    injection h with h2
    rw [← h2, Prod.mk.eta]
    exact hv

theorem addMessageCtx_responses (ctx : ConversationContext) (r c : String) :
    (addMessageCtx ctx r c).responses = ctx.responses := rfl

theorem addMessageCtx_getCurrentQuestion (ctx : ConversationContext) (r c : String) :
    getCurrentQuestion (addMessageCtx ctx r c) = getCurrentQuestion ctx := rfl

theorem moveToNextQuestion_responses (ctx : ConversationContext) :
    (moveToNextQuestion ctx).2.responses = ctx.responses := by
  unfold moveToNextQuestion
  dsimp only []
  split_ifs <;> rfl

theorem moveToNextQuestion_assessments (ctx : ConversationContext) :
    (moveToNextQuestion ctx).2.assessments = ctx.assessments := by
  unfold moveToNextQuestion
  dsimp only []
  split_ifs <;> rfl

theorem advanceAfterResponse_responses (collab : Collab) (ctxB : ConversationContext) :
    (advanceAfterResponse collab ctxB).2.responses = ctxB.responses := by
  unfold advanceAfterResponse
  dsimp only []
  rw [if_neg (lt_irrefl ((moveToNextQuestion ctxB).2.currentAssessmentIndex))]
  by_cases h1 : (moveToNextQuestion ctxB).1 = true
  · rw [if_pos h1]
    exact moveToNextQuestion_responses ctxB
  · rw [if_neg h1]
    cases hq : getCurrentQuestion (moveToNextQuestion ctxB).2 with
    | none => exact moveToNextQuestion_responses ctxB
    | some q =>
      dsimp only []
      rw [addMessageCtx_responses]
      exact moveToNextQuestion_responses ctxB

/-- The response record that one `processResponse` turn stores for the
current question. -/
def turnRecord (collab : Collab) (ctx : ConversationContext) (text : String)
    (q : Question) : ResponseRecord :=
  let evaluation := evaluateResponse collab.aiEval
  let existing := (lookupResponse ctx.responses q.id).getD
    { text := text
      score := evaluation.score
      followUpsAsked := 0
      evaluation := generateEvaluationText evaluation }
  if needsFollowUp evaluation existing.followUpsAsked text.length then
    { existing with followUpsAsked := existing.followUpsAsked + 1 }
  else existing

theorem processResponse_responses (collab : Collab) (ctx : ConversationContext)
    (text : String) :
    (processResponse collab ctx text).2.responses =
      match getCurrentQuestion ctx with
      | none => ctx.responses
      | some q => setResponse ctx.responses q.id (turnRecord collab ctx text q) := by
  unfold processResponse
  cases h : getCurrentQuestion ctx with
  | none =>
    simp only [(addMessageCtx_getCurrentQuestion ctx "user" text).trans h,
      addMessageCtx_responses]
  | some q =>
    simp only [(addMessageCtx_getCurrentQuestion ctx "user" text).trans h,
      addMessageCtx_responses, turnRecord]
    by_cases hf : needsFollowUp (evaluateResponse collab.aiEval)
      ((lookupResponse ctx.responses q.id).getD
        { text := text
          score := (evaluateResponse collab.aiEval).score
          followUpsAsked := 0
          evaluation := generateEvaluationText (evaluateResponse collab.aiEval) }).followUpsAsked
      text.length = true
    · rw [if_pos hf, if_pos hf]
      rfl
    · rw [if_neg hf, if_neg hf]
      rw [advanceAfterResponse_responses]

theorem questionsAt_of_ge (ctx : ConversationContext) (i : Nat)
    (h : ctx.assessments.length ≤ i) : questionsAt ctx i = [] := by
  unfold questionsAt
  rw [List.get?_eq_none.mpr h]
  rfl

theorem moveToNextQuestion_cursor (ctx : ConversationContext) :
    ((moveToNextQuestion ctx).2.currentAssessmentIndex = ctx.currentAssessmentIndex ∧
     (moveToNextQuestion ctx).2.currentQuestionIndex = ctx.currentQuestionIndex + 1) ∨
    ((moveToNextQuestion ctx).2.currentAssessmentIndex = ctx.currentAssessmentIndex + 1 ∧
     (moveToNextQuestion ctx).2.currentQuestionIndex = 0) := by
  unfold moveToNextQuestion
  dsimp only []
  split_ifs <;> simp

theorem moveToNextQuestion_isComplete (ctx : ConversationContext) :
    (moveToNextQuestion ctx).1 = true ↔
      ctx.assessments.length ≤ (moveToNextQuestion ctx).2.currentAssessmentIndex := by
  unfold moveToNextQuestion
  dsimp only []
  split_ifs with h1 h2
  · simpa using h2
  · simpa using h2
  · simp only []
    constructor
    · intro hc; exact absurd hc (by simp)
    · intro hc
      exfalso
      have : questionsAt ctx ctx.currentAssessmentIndex = [] :=
        questionsAt_of_ge ctx _ (by simpa using hc)
      rw [this] at h1
      simp at h1


theorem addMessageCtx_assessments (ctx : ConversationContext) (r c : String) :
    (addMessageCtx ctx r c).assessments = ctx.assessments := rfl

theorem addMessageCtx_ai (ctx : ConversationContext) (r c : String) :
    (addMessageCtx ctx r c).currentAssessmentIndex = ctx.currentAssessmentIndex := rfl

theorem addMessageCtx_qi (ctx : ConversationContext) (r c : String) :
    (addMessageCtx ctx r c).currentQuestionIndex = ctx.currentQuestionIndex := rfl

theorem advanceAfterResponse_flag (collab : Collab) (ctxB : ConversationContext) :
    (advanceAfterResponse collab ctxB).1 = (moveToNextQuestion ctxB).1 := by
  unfold advanceAfterResponse
  dsimp only []
  rw [if_neg (lt_irrefl ((moveToNextQuestion ctxB).2.currentAssessmentIndex))]
  by_cases h1 : (moveToNextQuestion ctxB).1 = true
  · rw [if_pos h1]
  · rw [if_neg h1]
    cases hq : getCurrentQuestion (moveToNextQuestion ctxB).2 <;> rfl

theorem advanceAfterResponse_ai (collab : Collab) (ctxB : ConversationContext) :
    (advanceAfterResponse collab ctxB).2.currentAssessmentIndex =
      (moveToNextQuestion ctxB).2.currentAssessmentIndex := by
  unfold advanceAfterResponse
  dsimp only []
  rw [if_neg (lt_irrefl ((moveToNextQuestion ctxB).2.currentAssessmentIndex))]
  by_cases h1 : (moveToNextQuestion ctxB).1 = true
  · rw [if_pos h1]
  · rw [if_neg h1]
    cases hq : getCurrentQuestion (moveToNextQuestion ctxB).2 <;> rfl

theorem advanceAfterResponse_qi (collab : Collab) (ctxB : ConversationContext) :
    (advanceAfterResponse collab ctxB).2.currentQuestionIndex =
      (moveToNextQuestion ctxB).2.currentQuestionIndex := by
  unfold advanceAfterResponse
  dsimp only []
  rw [if_neg (lt_irrefl ((moveToNextQuestion ctxB).2.currentAssessmentIndex))]
  by_cases h1 : (moveToNextQuestion ctxB).1 = true
  · rw [if_pos h1]
  · rw [if_neg h1]
    cases hq : getCurrentQuestion (moveToNextQuestion ctxB).2 <;> rfl

theorem advanceAfterResponse_assessments (collab : Collab) (ctxB : ConversationContext) :
    (advanceAfterResponse collab ctxB).2.assessments = ctxB.assessments := by
  unfold advanceAfterResponse
  dsimp only []
  rw [if_neg (lt_irrefl ((moveToNextQuestion ctxB).2.currentAssessmentIndex))]
  by_cases h1 : (moveToNextQuestion ctxB).1 = true
  · rw [if_pos h1]
    exact moveToNextQuestion_assessments ctxB
  · rw [if_neg h1]
    cases hq : getCurrentQuestion (moveToNextQuestion ctxB).2 with
    | none => exact moveToNextQuestion_assessments ctxB
    | some q =>
      dsimp only []
      rw [addMessageCtx_assessments]
      exact moveToNextQuestion_assessments ctxB

theorem moveToNextQuestion_congr (c c' : ConversationContext)
    (ha : c.assessments = c'.assessments)
    (h1 : c.currentAssessmentIndex = c'.currentAssessmentIndex)
    (h2 : c.currentQuestionIndex = c'.currentQuestionIndex) :
    (moveToNextQuestion c).1 = (moveToNextQuestion c').1 ∧
    (moveToNextQuestion c).2.currentAssessmentIndex =
      (moveToNextQuestion c').2.currentAssessmentIndex ∧
    (moveToNextQuestion c).2.currentQuestionIndex =
      (moveToNextQuestion c').2.currentQuestionIndex := by
  unfold moveToNextQuestion questionsAt
  dsimp only []
  rw [ha, h1, h2]
  split_ifs <;> simp

/-- The follow-up decision `processResponse` takes for question `q`
in state `ctx` for answer `text`. -/
def followUpDecision (collab : Collab) (ctx : ConversationContext)
    (text : String) (q : Question) : Bool :=
  needsFollowUp (evaluateResponse collab.aiEval)
    ((lookupResponse ctx.responses q.id).getD
      { text := text
        score := (evaluateResponse collab.aiEval).score
        followUpsAsked := 0
        evaluation := generateEvaluationText (evaluateResponse collab.aiEval) }).followUpsAsked
    text.length

theorem processResponse_cursorStep (collab : Collab) (ctx : ConversationContext)
    (text : String) :
    ((processResponse collab ctx text).2.currentAssessmentIndex = ctx.currentAssessmentIndex ∧
     (processResponse collab ctx text).2.currentQuestionIndex = ctx.currentQuestionIndex) ∨
    ((processResponse collab ctx text).2.currentAssessmentIndex =
       (moveToNextQuestion ctx).2.currentAssessmentIndex ∧
     (processResponse collab ctx text).2.currentQuestionIndex =
       (moveToNextQuestion ctx).2.currentQuestionIndex) := by
  unfold processResponse
  cases h : getCurrentQuestion ctx with
  | none =>
    simp only [(addMessageCtx_getCurrentQuestion ctx "user" text).trans h]
    left; exact ⟨rfl, rfl⟩
  | some q =>
    simp only [(addMessageCtx_getCurrentQuestion ctx "user" text).trans h,
      addMessageCtx_responses]
    by_cases hf : needsFollowUp (evaluateResponse collab.aiEval)
      ((lookupResponse ctx.responses q.id).getD
        { text := text
          score := (evaluateResponse collab.aiEval).score
          followUpsAsked := 0
          evaluation := generateEvaluationText (evaluateResponse collab.aiEval) }).followUpsAsked
      text.length = true
    · rw [if_pos hf]
      left; exact ⟨rfl, rfl⟩
    · rw [if_neg hf]
      right
      have hc := moveToNextQuestion_congr
        { addMessageCtx ctx "user" text with
          responses := setResponse ctx.responses q.id
            ((lookupResponse ctx.responses q.id).getD
              { text := text
                score := (evaluateResponse collab.aiEval).score
                followUpsAsked := 0
                evaluation := generateEvaluationText (evaluateResponse collab.aiEval) }) }
        ctx rfl rfl rfl
      constructor
      · rw [advanceAfterResponse_ai]
        exact hc.2.1
      · rw [advanceAfterResponse_qi]
        exact hc.2.2

theorem processResponse_assessments (collab : Collab) (ctx : ConversationContext)
    (text : String) :
    (processResponse collab ctx text).2.assessments = ctx.assessments := by
  unfold processResponse
  cases h : getCurrentQuestion ctx with
  | none =>
    simp only [(addMessageCtx_getCurrentQuestion ctx "user" text).trans h]
    rfl
  | some q =>
    simp only [(addMessageCtx_getCurrentQuestion ctx "user" text).trans h,
      addMessageCtx_responses]
    by_cases hf : needsFollowUp (evaluateResponse collab.aiEval)
      ((lookupResponse ctx.responses q.id).getD
        { text := text
          score := (evaluateResponse collab.aiEval).score
          followUpsAsked := 0
          evaluation := generateEvaluationText (evaluateResponse collab.aiEval) }).followUpsAsked
      text.length = true
    · rw [if_pos hf]
      rfl
    · rw [if_neg hf]
      dsimp only []
      rw [advanceAfterResponse_assessments]
      rfl

theorem processResponse_isComplete_eq (collab : Collab) (ctx : ConversationContext)
    (text : String) :
    (processResponse collab ctx text).1.isComplete =
      match getCurrentQuestion ctx with
      | none => true
      | some q =>
          if followUpDecision collab ctx text q then false
          else (moveToNextQuestion ctx).1 := by
  unfold processResponse followUpDecision
  cases h : getCurrentQuestion ctx with
  | none =>
    simp only [(addMessageCtx_getCurrentQuestion ctx "user" text).trans h]
    rfl
  | some q =>
    simp only [(addMessageCtx_getCurrentQuestion ctx "user" text).trans h,
      addMessageCtx_responses]
    by_cases hf : needsFollowUp (evaluateResponse collab.aiEval)
      ((lookupResponse ctx.responses q.id).getD
        { text := text
          score := (evaluateResponse collab.aiEval).score
          followUpsAsked := 0
          evaluation := generateEvaluationText (evaluateResponse collab.aiEval) }).followUpsAsked
      text.length = true
    · rw [if_pos hf, if_pos hf]
    · rw [if_neg hf, if_neg hf]
      dsimp only []
      rw [advanceAfterResponse_flag]
      exact (moveToNextQuestion_congr
        { addMessageCtx ctx "user" text with
          responses := setResponse ctx.responses q.id
            ((lookupResponse ctx.responses q.id).getD
              { text := text
                score := (evaluateResponse collab.aiEval).score
                followUpsAsked := 0
                evaluation := generateEvaluationText (evaluateResponse collab.aiEval) }) }
        ctx rfl rfl rfl).1

theorem moveToNextQuestion_history (ctx : ConversationContext) :
    (moveToNextQuestion ctx).2.conversationHistory = ctx.conversationHistory := by
  unfold moveToNextQuestion
  dsimp only []
  split_ifs <;> rfl

theorem addMessageCtx_history (ctx : ConversationContext) (r c : String) :
    (addMessageCtx ctx r c).conversationHistory =
      ctx.conversationHistory ++ [(r, c)] := rfl

theorem advanceAfterResponse_history (collab : Collab) (ctxB : ConversationContext) :
    (advanceAfterResponse collab ctxB).2.conversationHistory = ctxB.conversationHistory ∨
    (advanceAfterResponse collab ctxB).2.conversationHistory =
      ctxB.conversationHistory ++ [("assistant", collab.adaptedNextText)] := by
  unfold advanceAfterResponse
  dsimp only []
  rw [if_neg (lt_irrefl ((moveToNextQuestion ctxB).2.currentAssessmentIndex))]
  by_cases h1 : (moveToNextQuestion ctxB).1 = true
  · rw [if_pos h1]
    left; exact moveToNextQuestion_history ctxB
  · rw [if_neg h1]
    cases hq : getCurrentQuestion (moveToNextQuestion ctxB).2 with
    | none => left; exact moveToNextQuestion_history ctxB
    | some q =>
      dsimp only []
      right
      rw [addMessageCtx_history, moveToNextQuestion_history]

theorem processResponse_history (collab : Collab) (ctx : ConversationContext)
    (text : String) :
    ∃ suffix, (processResponse collab ctx text).2.conversationHistory =
      ctx.conversationHistory ++ ("user", text) :: suffix := by
  unfold processResponse
  cases h : getCurrentQuestion ctx with
  | none =>
    simp only [(addMessageCtx_getCurrentQuestion ctx "user" text).trans h]
    exact ⟨[], rfl⟩
  | some q =>
    simp only [(addMessageCtx_getCurrentQuestion ctx "user" text).trans h,
      addMessageCtx_responses]
    by_cases hf : needsFollowUp (evaluateResponse collab.aiEval)
      ((lookupResponse ctx.responses q.id).getD
        { text := text
          score := (evaluateResponse collab.aiEval).score
          followUpsAsked := 0
          evaluation := generateEvaluationText (evaluateResponse collab.aiEval) }).followUpsAsked
      text.length = true
    · rw [if_pos hf]
      refine ⟨[("assistant", collab.followUpText)], ?_⟩
      dsimp only []
      rw [addMessageCtx_history]
      simp [addMessageCtx_history]
    · rw [if_neg hf]
      dsimp only []
      rcases advanceAfterResponse_history collab
        { addMessageCtx ctx "user" text with
          responses := setResponse ctx.responses q.id
            ((lookupResponse ctx.responses q.id).getD
              { text := text
                score := (evaluateResponse collab.aiEval).score
                followUpsAsked := 0
                evaluation := generateEvaluationText (evaluateResponse collab.aiEval) }) }
        with hh | hh
      · refine ⟨[], ?_⟩
        rw [hh]
        rfl
      · refine ⟨[("assistant", collab.adaptedNextText)], ?_⟩
        rw [hh]
        rw [show ({ addMessageCtx ctx "user" text with
          responses := setResponse ctx.responses q.id
            ((lookupResponse ctx.responses q.id).getD
              { text := text
                score := (evaluateResponse collab.aiEval).score
                followUpsAsked := 0
                evaluation := generateEvaluationText (evaluateResponse collab.aiEval) }) } :
            ConversationContext).conversationHistory =
          ctx.conversationHistory ++ [("user", text)] from rfl]
        simp

/-- Cursor well-formedness: every assessment of the plan is non-empty
(the spec's invariant), the cursor points at a real question while the
plan is unfinished, and a finished cursor sits exactly at
`(assessments.length, 0)`. -/
def PlanAligned (ctx : ConversationContext) : Prop :=
  (∀ ta ∈ ctx.assessments, ta.questions ≠ []) ∧
  (ctx.currentAssessmentIndex < ctx.assessments.length →
    ctx.currentQuestionIndex < (questionsAt ctx ctx.currentAssessmentIndex).length) ∧
  (ctx.assessments.length ≤ ctx.currentAssessmentIndex →
    ctx.currentAssessmentIndex = ctx.assessments.length ∧
    ctx.currentQuestionIndex = 0)

theorem getCurrentQuestion_some_lt {ctx : ConversationContext} {q : Question}
    (h : getCurrentQuestion ctx = some q) :
    ctx.currentAssessmentIndex < ctx.assessments.length := by
  by_contra hc
  unfold getCurrentQuestion at h
  rw [if_pos (Nat.le_of_not_lt hc)] at h
  exact Option.noConfusion h

theorem aligned_none_end {ctx : ConversationContext} (ha : PlanAligned ctx)
    (hn : getCurrentQuestion ctx = none) :
    ctx.currentAssessmentIndex = ctx.assessments.length := by
  rcases ha with ⟨-, h2, h3⟩
  by_cases hlt : ctx.currentAssessmentIndex < ctx.assessments.length
  · exfalso
    unfold getCurrentQuestion at hn
    rw [if_neg (Nat.not_le_of_lt hlt)] at hn
    rw [List.get?_eq_none] at hn
    exact absurd (h2 hlt) (Nat.not_lt_of_le hn)
  · exact (h3 (Nat.le_of_not_lt hlt)).1

theorem questionsAt_pos {ctx : ConversationContext} {i : Nat}
    (hne : ∀ ta ∈ ctx.assessments, ta.questions ≠ [])
    (hi : i < ctx.assessments.length) :
    0 < (questionsAt ctx i).length := by
  unfold questionsAt
  rw [List.get?_eq_get hi]
  have hm := List.get_mem ctx.assessments i hi
  have := hne _ hm
  simpa [List.length_pos] using this

theorem moveToNextQuestion_aligned (ctx : ConversationContext)
    (ha : PlanAligned ctx)
    (hlt : ctx.currentAssessmentIndex < ctx.assessments.length) :
    PlanAligned (moveToNextQuestion ctx).2 := by
  rcases ha with ⟨h1, h2, h3⟩
  unfold moveToNextQuestion
  dsimp only []
  split_ifs with hq1 hq2
  · refine ⟨h1, ?_, ?_⟩
    · intro hlt2
      exact absurd hlt2 (Nat.not_lt_of_le (by simpa using hq2))
    · intro hle
      dsimp only [] at hle ⊢
      have hq2' : ctx.assessments.length ≤ ctx.currentAssessmentIndex + 1 := by
        simpa using hq2
      exact ⟨by omega, rfl⟩
  · refine ⟨h1, ?_, ?_⟩
    · intro hlt2
      have : 0 < (questionsAt ctx (ctx.currentAssessmentIndex + 1)).length :=
        questionsAt_pos h1 (by simpa using hlt2)
      simpa [questionsAt] using this
    · intro hle
      exact absurd (by simpa using hle) hq2
  · refine ⟨h1, ?_, ?_⟩
    · intro hlt2
      have := Nat.lt_of_not_le (fun hcon => hq1 (by simpa using hcon))
      simpa [questionsAt] using this
    · intro hle
      exact absurd hlt (Nat.not_lt_of_le (by simpa using hle))

theorem processResponse_cursor_eq (collab : Collab) (ctx : ConversationContext)
    (text : String) :
    ((processResponse collab ctx text).2.currentAssessmentIndex,
     (processResponse collab ctx text).2.currentQuestionIndex) =
      match getCurrentQuestion ctx with
      | none => (ctx.currentAssessmentIndex, ctx.currentQuestionIndex)
      | some q =>
          if followUpDecision collab ctx text q then
            (ctx.currentAssessmentIndex, ctx.currentQuestionIndex)
          else
            ((moveToNextQuestion ctx).2.currentAssessmentIndex,
             (moveToNextQuestion ctx).2.currentQuestionIndex) := by
  unfold processResponse followUpDecision
  cases h : getCurrentQuestion ctx with
  | none =>
    simp only [(addMessageCtx_getCurrentQuestion ctx "user" text).trans h]
    rfl
  | some q =>
    simp only [(addMessageCtx_getCurrentQuestion ctx "user" text).trans h,
      addMessageCtx_responses]
    by_cases hf : needsFollowUp (evaluateResponse collab.aiEval)
      ((lookupResponse ctx.responses q.id).getD
        { text := text
          score := (evaluateResponse collab.aiEval).score
          followUpsAsked := 0
          evaluation := generateEvaluationText (evaluateResponse collab.aiEval) }).followUpsAsked
      text.length = true
    · rw [if_pos hf, if_pos hf]
      rfl
    · rw [if_neg hf, if_neg hf]
      dsimp only []
      have hc := moveToNextQuestion_congr
        { addMessageCtx ctx "user" text with
          responses := setResponse ctx.responses q.id
            ((lookupResponse ctx.responses q.id).getD
              { text := text
                score := (evaluateResponse collab.aiEval).score
                followUpsAsked := 0
                evaluation := generateEvaluationText (evaluateResponse collab.aiEval) }) }
        ctx rfl rfl rfl
      rw [advanceAfterResponse_ai, advanceAfterResponse_qi, hc.2.1, hc.2.2]

theorem PlanAligned_congr (c c' : ConversationContext)
    (ha : c.assessments = c'.assessments)
    (h1 : c.currentAssessmentIndex = c'.currentAssessmentIndex)
    (h2 : c.currentQuestionIndex = c'.currentQuestionIndex) :
    PlanAligned c ↔ PlanAligned c' := by
  unfold PlanAligned questionsAt
  rw [ha, h1, h2]

theorem processResponse_aligned (collab : Collab) (ctx : ConversationContext)
    (text : String) (ha : PlanAligned ctx) :
    PlanAligned (processResponse collab ctx text).2 := by
  have hcur := processResponse_cursor_eq collab ctx text
  have hass := processResponse_assessments collab ctx text
  cases h : getCurrentQuestion ctx with
  | none =>
    rw [h] at hcur
    dsimp only [] at hcur
    exact (PlanAligned_congr _ ctx hass (congrArg Prod.fst hcur)
      (congrArg Prod.snd hcur)).mpr ha
  | some q =>
    rw [h] at hcur
    dsimp only [] at hcur
    by_cases hf : followUpDecision collab ctx text q = true
    · rw [if_pos hf] at hcur
      exact (PlanAligned_congr _ ctx hass (congrArg Prod.fst hcur)
        (congrArg Prod.snd hcur)).mpr ha
    · rw [if_neg hf] at hcur
      have hmv := moveToNextQuestion_aligned ctx ha (getCurrentQuestion_some_lt h)
      have hassm := moveToNextQuestion_assessments ctx
      refine (PlanAligned_congr _ (moveToNextQuestion ctx).2
        (by rw [hass, hassm]) (congrArg Prod.fst hcur) (congrArg Prod.snd hcur)).mpr hmv

theorem processResponse_complete_iff (collab : Collab) (ctx : ConversationContext)
    (text : String) (ha : PlanAligned ctx) :
    ((processResponse collab ctx text).1.isComplete = true ↔
      (processResponse collab ctx text).2.currentAssessmentIndex =
        ctx.assessments.length) := by
  have hcur := processResponse_cursor_eq collab ctx text
  have hcmp := processResponse_isComplete_eq collab ctx text
  cases h : getCurrentQuestion ctx with
  | none =>
    rw [h] at hcur hcmp
    dsimp only [] at hcur hcmp
    have hA : (processResponse collab ctx text).2.currentAssessmentIndex =
        ctx.currentAssessmentIndex := by
      simpa using congrArg Prod.fst hcur
    rw [hcmp, hA]
    simpa using aligned_none_end ha h
  | some q =>
    rw [h] at hcur hcmp
    dsimp only [] at hcur hcmp
    by_cases hf : followUpDecision collab ctx text q = true
    · rw [if_pos hf] at hcur hcmp
      have hA : (processResponse collab ctx text).2.currentAssessmentIndex =
          ctx.currentAssessmentIndex := by
        simpa using congrArg Prod.fst hcur
      rw [hcmp, hA]
      have := getCurrentQuestion_some_lt h
      simp only [Bool.false_eq_true, false_iff]
      omega
    · rw [if_neg hf] at hcur hcmp
      have hA : (processResponse collab ctx text).2.currentAssessmentIndex =
          (moveToNextQuestion ctx).2.currentAssessmentIndex := by
        simpa using congrArg Prod.fst hcur
      rw [hcmp, hA]
      rw [moveToNextQuestion_isComplete]
      have hlt := getCurrentQuestion_some_lt h
      rcases moveToNextQuestion_cursor ctx with ⟨he1, -⟩ | ⟨he1, -⟩ <;>
        rw [he1] <;> constructor <;> intro hx <;> omega

/-- Conversation states reachable by the orchestrator: a fresh session
(`createSession` stores an empty `responses` map) followed by any mix of
`processResponse` turns and `addMessage` calls. -/
inductive Reachable : ConversationContext → Prop
  | init (ctx : ConversationContext) (h : ctx.responses = []) : Reachable ctx
  | step (collab : Collab) (text : String) {ctx : ConversationContext} :
      Reachable ctx → Reachable (processResponse collab ctx text).2
  | msg (role content : String) {ctx : ConversationContext} :
      Reachable ctx → Reachable (addMessageCtx ctx role content)

theorem turnRecord_followUps_le_one (collab : Collab) (ctx : ConversationContext)
    (text : String) (q : Question)
    (h : ∀ p ∈ ctx.responses, p.2.followUpsAsked ≤ 1) :
    (turnRecord collab ctx text q).followUpsAsked ≤ 1 := by
  unfold turnRecord
  dsimp only []
  split_ifs with hf
  · have h0 := needsFollowUp_true_eq_zero hf
    simp [h0]
  · cases hl : lookupResponse ctx.responses q.id with
    | none => simp [hl]
    | some r =>
      rcases lookupResponse_mem hl with ⟨k, hk⟩
      simpa [hl] using h (k, r) hk

theorem followUps_le_one_step (collab : Collab) (ctx : ConversationContext)
    (text : String)
    (h : ∀ p ∈ ctx.responses, p.2.followUpsAsked ≤ 1) :
    ∀ p ∈ (processResponse collab ctx text).2.responses,
      p.2.followUpsAsked ≤ 1 := by
  intro p hp
  rw [processResponse_responses] at hp
  cases hq : getCurrentQuestion ctx with
  | none =>
    rw [hq] at hp
    exact h p hp
  | some q =>
    rw [hq] at hp
    dsimp only [] at hp
    rcases mem_setResponse hp with hpe | hmem
    · rw [hpe]
      exact turnRecord_followUps_le_one collab ctx text q h
    · exact h p hmem

theorem reachable_followUps_le_one {ctx : ConversationContext}
    (h : Reachable ctx) :
    ∀ p ∈ ctx.responses, p.2.followUpsAsked ≤ 1 := by
  induction h with
  | init ctx h0 =>
    intro p hp
    rw [h0] at hp
    exact absurd hp (List.not_mem_nil p)
  | step collab text hr ih => exact followUps_le_one_step _ _ _ ih
  | msg role content hr ih =>
    intro p hp
    rw [addMessageCtx_responses] at hp
    exact ih p hp

theorem processResponse_turn_response (collab : Collab) (ctx : ConversationContext)
    (text : String) (q : Question) (h : getCurrentQuestion ctx = some q) :
    (processResponse collab ctx text).1.response =
      { text := text
        score := (evaluateResponse collab.aiEval).score
        evaluation := generateEvaluationText (evaluateResponse collab.aiEval) } := by
  unfold processResponse
  simp only [(addMessageCtx_getCurrentQuestion ctx "user" text).trans h,
    addMessageCtx_responses]
  by_cases hf : needsFollowUp (evaluateResponse collab.aiEval)
    ((lookupResponse ctx.responses q.id).getD
      { text := text
        score := (evaluateResponse collab.aiEval).score
        followUpsAsked := 0
        evaluation := generateEvaluationText (evaluateResponse collab.aiEval) }).followUpsAsked
    text.length = true
  · rw [if_pos hf]
  · rw [if_neg hf]

theorem processResponse_existing_record (collab : Collab)
    (ctx : ConversationContext) (text : String) (q : Question)
    (r : ResponseRecord) (hq : getCurrentQuestion ctx = some q)
    (hr : lookupResponse ctx.responses q.id = some r) :
    lookupResponse (processResponse collab ctx text).2.responses q.id =
      some (if needsFollowUp (evaluateResponse collab.aiEval) r.followUpsAsked
              text.length
            then { r with followUpsAsked := r.followUpsAsked + 1 }
            else r) := by
  rw [processResponse_responses, hq]
  dsimp only []
  rw [lookupResponse_setResponse_self]
  congr 1
  unfold turnRecord
  dsimp only []
  rw [hr]
  simp

theorem storeGet_storeDelete (store : SessionStore) (sessionId : String) :
    storeGet (storeDelete store sessionId) sessionId = none := by
  unfold storeGet storeDelete
  rw [show (List.find? (fun p => p.1 == sessionId)
      ((store : List (String × ConversationContext)).filter
        fun p => !(p.1 == sessionId))) = none from ?_]
  · rfl
  · rw [List.find?_eq_none]
    intro x hx
    have := List.of_mem_filter hx
    simp at this
    simp [this]

theorem completeInterview_ok (chat : Option String) (store : SessionStore)
    (sessionId : String) (ctx : ConversationContext)
    (h : storeGet store sessionId = some ctx) :
    ∃ s, completeInterview chat store sessionId =
        Except.ok (s, storeDelete store sessionId) ∧
      s.overallScore = overallScoreOf ctx.responses ∧
      s.scoreBreakdown = scoreBreakdownOf ctx.assessments ctx.responses := by
  unfold completeInterview
  rw [h]
  exact ⟨_, rfl, rfl, rfl⟩

theorem completeInterview_second_call (chat chat2 : Option String)
    (store : SessionStore) (sessionId : String) (s : InterviewSummary)
    (store2 : SessionStore)
    (h : completeInterview chat store sessionId = Except.ok (s, store2)) :
    completeInterview chat2 store2 sessionId =
      Except.error "Session not found or expired" := by
  unfold completeInterview at h ⊢
  cases hg : storeGet store sessionId with
  | none => rw [hg] at h; exact Except.noConfusion h
  | some ctx =>
    rw [hg] at h
    have hstore2 : store2 = storeDelete store sessionId := by
      injection h with h1
      exact (congrArg Prod.snd h1).symm
    rw [hstore2, storeGet_storeDelete]

/-! ### Concrete sessions used by witnesses and counterexamples -/

def qOne : Question := ⟨"q1", "Question one"⟩
def qTwo : Question := ⟨"q2", "Question two"⟩
def qThree : Question := ⟨"q3", "Question three"⟩

/-- A fresh two-question session (one assessment of weight 100). -/
def freshCtx : ConversationContext :=
  { sessionId := "s0"
    interviewId := "i0"
    assessments := [⟨"a1", "Technical", 100, [qOne, qTwo]⟩]
    currentAssessmentIndex := 0
    currentQuestionIndex := 0
    conversationHistory := []
    responses := [] }

/-- A collaborator round whose evaluator call fails (`aiEval = none`). -/
def failCollab : Collab :=
  ⟨none, "Could you elaborate on that?", "Let us move on.", "Here is the next question."⟩

def goodEval : EvaluationResult := ⟨80, ["clear"], [], "hire", "solid answer"⟩

def goodCollab : Collab :=
  ⟨some goodEval, "Could you elaborate on that?", "Let us move on.", "Here is the next question."⟩

def longAnswer : String :=
  "This is a sufficiently long and detailed answer to the interview question."

def shortAnswer : String := "short"

/-- The state after one short answer whose evaluation falls back:
the policy asks a follow-up and records `followUpsAsked = 1`. -/
def followUpCtx : ConversationContext :=
  (processResponse failCollab freshCtx shortAnswer).2

def followUpRecord : ResponseRecord :=
  { text := shortAnswer
    score := 50
    followUpsAsked := 1
    evaluation := generateEvaluationText fallbackEvaluation }


/-- The spec's §8 scenario plan: one assessment of weight 100 with three
questions. -/
def scenarioCtx : ConversationContext :=
  { sessionId := "s1"
    interviewId := "i1"
    assessments := [⟨"a1", "Technical", 100, [qOne, qTwo, qThree]⟩]
    currentAssessmentIndex := 0
    currentQuestionIndex := 0
    conversationHistory := []
    responses := [] }

def scenarioStep1 : InterviewTurn × ConversationContext :=
  processResponse goodCollab scenarioCtx longAnswer

def scenarioStep2 : InterviewTurn × ConversationContext :=
  processResponse goodCollab scenarioStep1.2 longAnswer

def scenarioStep3 : InterviewTurn × ConversationContext :=
  processResponse goodCollab scenarioStep2.2 longAnswer

/-- The `FinalSummary` of the scenario run (chat collaborator failed, so
the narrative fields hold the source's defaults). -/
def scenarioSummary : InterviewSummary :=
  { interviewId := "i1"
    overallScore := 80
    scoreBreakdown := [("a1", 80)]
    evaluation := "Summary generation failed"
    strengths := ["No specific strengths identified"]
    weaknesses := ["No major weaknesses identified"]
    recommendation := "maybe"
    insights := ["Continue evaluation process"] }

/-- Two assessments of equal weight but unequal question counts, fully
answered: q1 scored 100, q2 and q3 scored 0. -/
def weightedCtx : ConversationContext :=
  { sessionId := "s2"
    interviewId := "i2"
    assessments := [⟨"a1", "A", 50, [qOne]⟩, ⟨"a2", "B", 50, [qTwo, qThree]⟩]
    currentAssessmentIndex := 2
    currentQuestionIndex := 0
    conversationHistory := []
    responses := [("q1", ⟨"answer one", 100, 0, "e1"⟩),
                  ("q2", ⟨"answer two", 0, 0, "e2"⟩),
                  ("q3", ⟨"answer three", 0, 0, "e3"⟩)] }

def weightedStore : SessionStore := [("s2", weightedCtx)]

/-- A completed one-question session with a recorded score of 80. -/
def doneCtx : ConversationContext :=
  { sessionId := "s3"
    interviewId := "i3"
    assessments := [⟨"a1", "Technical", 100, [qOne]⟩]
    currentAssessmentIndex := 1
    currentQuestionIndex := 0
    conversationHistory := []
    responses := [("q1", ⟨"answer one", 80, 0, "e1"⟩)] }

def doneStore : SessionStore := [("s3", doneCtx)]

def doneSummary : InterviewSummary :=
  { interviewId := "i3"
    overallScore := 80
    scoreBreakdown := [("a1", 80)]
    evaluation := "Summary generation failed"
    strengths := ["No specific strengths identified"]
    weaknesses := ["No major weaknesses identified"]
    recommendation := "maybe"
    insights := ["Continue evaluation process"] }

/-- A question already carrying a recorded first answer (score 40, one
follow-up already asked). -/
def firstRecord : ResponseRecord :=
  ⟨"my first answer", 40, 1, "Initial evaluation"⟩

def repeatCtx : ConversationContext :=
  { sessionId := "s4"
    interviewId := "i4"
    assessments := [⟨"a1", "Technical", 100, [qOne]⟩]
    currentAssessmentIndex := 0
    currentQuestionIndex := 0
    conversationHistory := []
    responses := [("q1", firstRecord)] }

def strongEval : EvaluationResult := ⟨90, ["thorough"], [], "hire", "great"⟩

def strongCollab : Collab :=
  ⟨some strongEval, "Could you elaborate on that?", "Let us move on.", "Here is the next question."⟩

def exSession : RegistrySession := ⟨"s1", "i1", "cand1", ["r1"], true⟩

deriving instance DecidableEq for Except

/-! ### Claims -/

/-- C3: `needsFollowUp` returns false whenever `followUpsAsked ≥ 2`;
it returns true exactly when `followUpsAsked < 1` and (score < 50, or
the answer is shorter than 50 characters, or some weakness mentions
"unclear"/"vague"/"specific" case-insensitively); it returns false in
all other cases. -/
theorem C3_needsFollowUp_characterization :
    ∀ (e : EvaluationResult) (n len : Nat),
      (2 ≤ n → needsFollowUp e n len = false) ∧
      (needsFollowUp e n len = true ↔
        n < 1 ∧ (e.score < 50 ∨ len < 50 ∨
          weaknessNeedsClarification e.weaknesses = true)) := by
  intro e n len
  rw [needsFollowUp_eq]
  constructor
  · intro h2
    have hn : decide (n < 1) = false := by
      simp only [decide_eq_false_iff_not]
      omega
    rw [hn, Bool.false_and]
  · simp only [Bool.and_eq_true, Bool.or_eq_true, decide_eq_true_eq]
    tauto

/-- Witness for C3 at concrete inputs: the cap case and a short-answer
trigger. -/
theorem C3_needsFollowUp_characterization_witness :
    needsFollowUp fallbackEvaluation 2 7 = false ∧
    needsFollowUp fallbackEvaluation 0 7 = true :=
  ⟨(C3_needsFollowUp_characterization fallbackEvaluation 2 7).1 (by omega),
   (C3_needsFollowUp_characterization fallbackEvaluation 0 7).2.mpr
     (by refine ⟨by omega, Or.inr (Or.inl (by omega))⟩)⟩

/-- C7: the trust score is 100 minus 5 per face-detection event
reporting more than one face, 3 per tab switch, 10 per fullscreen exit
and 15 per suspicious-activity entry, clamped to [0,100]; two tab
switches plus one fullscreen exit give 84. -/
theorem C7_trustScore_formula :
    (∀ pd : ProctorData,
      calculateTrustScore pd =
        max 0 (min 100
          (100 - 5 * ((pd.faceDetections.filter fun fd => fd > 1).length : Int)
            - 3 * pd.tabSwitches - 10 * pd.fullscreenExits
            - 15 * (pd.suspiciousActivity.length : Int))) ∧
      0 ≤ calculateTrustScore pd ∧ calculateTrustScore pd ≤ 100) ∧
    calculateTrustScore ⟨[], 2, 1, []⟩ = 84 := by
  constructor
  · intro pd
    unfold calculateTrustScore
    dsimp only []
    refine ⟨?_, ?_, ?_⟩ <;> omega
  · decide

/-- C9: a candidate join on an existing session silently replaces the
candidate connection (keeping the observer set); adding an observer
socket that is already present leaves the session unchanged. -/
theorem C9_registry_join_semantics :
    (∀ (s : RegistrySession) (sid iid sock : String),
      joinAsCandidate (some s) sid iid sock =
        { s with candidateSocketId := sock }) ∧
    (∀ (s : RegistrySession) (sock : String),
      s.recruiterSocketIds.contains sock = true →
      addRecruiterObserver s sock = s) := by
  constructor
  · intro s sid iid sock
    rfl
  · intro s sock h
    unfold addRecruiterObserver
    rw [if_pos h]

/-- Witness for C9 at a concrete session. -/
theorem C9_registry_join_semantics_witness :
    joinAsCandidate (some exSession) "x" "y" "cand2" =
      { exSession with candidateSocketId := "cand2" } ∧
    addRecruiterObserver exSession "r1" = exSession :=
  ⟨C9_registry_join_semantics.1 exSession "x" "y" "cand2",
   C9_registry_join_semantics.2 exSession "r1" (by decide)⟩

/-- C10 (implicit): every trigger of the follow-up policy requires
`followUpsAsked < 1`, so `needsFollowUp` at 1 is already false and in
every reachable conversation state `followUpsAsked` stays at most 1 —
strictly tighter than the stated cap of two. -/
theorem C10_followUps_at_most_one :
    (∀ (e : EvaluationResult) (len : Nat), needsFollowUp e 1 len = false) ∧
    (∀ ctx : ConversationContext, Reachable ctx →
      ∀ p ∈ ctx.responses, p.2.followUpsAsked ≤ 1) := by
  constructor
  · intro e len
    rw [needsFollowUp_eq]
    simp
  · intro ctx h
    exact reachable_followUps_le_one h

/-- Witness for C10: a reachable state holding a record with one
follow-up asked. -/
theorem C10_followUps_at_most_one_witness :
    needsFollowUp fallbackEvaluation 1 7 = false ∧
    ("q1", followUpRecord).2.followUpsAsked ≤ 1 :=
  ⟨C10_followUps_at_most_one.1 fallbackEvaluation 7,
   C10_followUps_at_most_one.2 followUpCtx
     (Reachable.step failCollab shortAnswer (Reachable.init freshCtx rfl))
     ("q1", followUpRecord) (by decide)⟩

/-- C4: across any sequence of turns the recorded `followUpsAsked`
never exceeds 2, and at 2 the policy refuses further follow-ups
whatever the score, length or weaknesses. -/
theorem C4_followUp_cap :
    (∀ (e : EvaluationResult) (len : Nat), needsFollowUp e 2 len = false) ∧
    (∀ ctx : ConversationContext, Reachable ctx →
      ∀ p ∈ ctx.responses, p.2.followUpsAsked ≤ 2) := by
  constructor
  · intro e len
    rw [needsFollowUp_eq]
    simp
  · intro ctx h p hp
    exact Nat.le_trans (reachable_followUps_le_one h p hp) (by omega)

/-- Witness for C4: the same reachable state, against the cap of two. -/
theorem C4_followUp_cap_witness :
    needsFollowUp fallbackEvaluation 2 7 = false ∧
    ("q1", followUpRecord).2.followUpsAsked ≤ 2 :=
  ⟨C4_followUp_cap.1 fallbackEvaluation 7,
   C4_followUp_cap.2 followUpCtx
     (Reachable.step failCollab shortAnswer (Reachable.init freshCtx rfl))
     ("q1", followUpRecord) (by decide)⟩

/-- C8: one `processResponse` turn leaves the plan unchanged and never
moves the (assessmentIndex, questionIndex) cursor backward in
lexicographic order; over well-formed states (non-empty assessments,
cursor on a real question or parked at the end) well-formedness is
preserved and the turn reports `isComplete` exactly when the cursor
stands at the end of the plan (assessmentIndex = number of
assessments). -/
theorem C8_cursor_monotone_complete_at_end :
    ∀ (collab : Collab) (ctx : ConversationContext) (text : String),
      (processResponse collab ctx text).2.assessments = ctx.assessments ∧
      (ctx.currentAssessmentIndex <
         (processResponse collab ctx text).2.currentAssessmentIndex ∨
       (ctx.currentAssessmentIndex =
          (processResponse collab ctx text).2.currentAssessmentIndex ∧
        ctx.currentQuestionIndex ≤
          (processResponse collab ctx text).2.currentQuestionIndex)) ∧
      (PlanAligned ctx →
        PlanAligned (processResponse collab ctx text).2 ∧
        ((processResponse collab ctx text).1.isComplete = true ↔
          (processResponse collab ctx text).2.currentAssessmentIndex =
            ctx.assessments.length)) := by
  intro collab ctx text
  refine ⟨processResponse_assessments collab ctx text, ?_, ?_⟩
  · have hcur := processResponse_cursor_eq collab ctx text
    cases h : getCurrentQuestion ctx with
    | none =>
      rw [h] at hcur
      dsimp only [] at hcur
      have hA : (processResponse collab ctx text).2.currentAssessmentIndex =
          ctx.currentAssessmentIndex := by simpa using congrArg Prod.fst hcur
      have hQ : (processResponse collab ctx text).2.currentQuestionIndex =
          ctx.currentQuestionIndex := by simpa using congrArg Prod.snd hcur
      right
      omega
    | some q =>
      rw [h] at hcur
      dsimp only [] at hcur
      by_cases hf : followUpDecision collab ctx text q = true
      · rw [if_pos hf] at hcur
        have hA : (processResponse collab ctx text).2.currentAssessmentIndex =
            ctx.currentAssessmentIndex := by simpa using congrArg Prod.fst hcur
        have hQ : (processResponse collab ctx text).2.currentQuestionIndex =
            ctx.currentQuestionIndex := by simpa using congrArg Prod.snd hcur
        right
        omega
      · rw [if_neg hf] at hcur
        have hA : (processResponse collab ctx text).2.currentAssessmentIndex =
            (moveToNextQuestion ctx).2.currentAssessmentIndex := by
          simpa using congrArg Prod.fst hcur
        have hQ : (processResponse collab ctx text).2.currentQuestionIndex =
            (moveToNextQuestion ctx).2.currentQuestionIndex := by
          simpa using congrArg Prod.snd hcur
        rcases moveToNextQuestion_cursor ctx with ⟨h1, h2⟩ | ⟨h1, h2⟩
        · right
          omega
        · left
          omega
  · intro ha
    exact ⟨processResponse_aligned collab ctx text ha,
      processResponse_complete_iff collab ctx text ha⟩

/-- Witness for C8 on a concrete well-formed session. -/
theorem C8_cursor_monotone_complete_at_end_witness :
    PlanAligned (processResponse goodCollab freshCtx longAnswer).2 ∧
    ((processResponse goodCollab freshCtx longAnswer).1.isComplete = true ↔
      (processResponse goodCollab freshCtx longAnswer).2.currentAssessmentIndex =
        freshCtx.assessments.length) :=
  (C8_cursor_monotone_complete_at_end goodCollab freshCtx longAnswer).2.2
    ⟨by decide, fun h => by decide, fun h => absurd h (by decide)⟩

/-- C5 counterexample: with the evaluator's backing call failing
(`aiEval = none`), `processResponse` still mutates the conversation
state — the answer is recorded (fallback score) and the cursor moves —
so the state after the failed call differs from the state before it. -/
theorem C5_counterexample :
    (processResponse failCollab freshCtx longAnswer).2 ≠ freshCtx ∧
    (processResponse failCollab freshCtx longAnswer).2.responses ≠
      freshCtx.responses ∧
    (processResponse failCollab freshCtx longAnswer).2.currentQuestionIndex ≠
      freshCtx.currentQuestionIndex := by decide

/-- C5 amended: a failure of the evaluator's backing call does not abort
the turn; `evaluateResponse` substitutes the fallback evaluation
(score 50) and `processResponse` commits normally — the reported score
is 50, the user message is appended to the history, and a response is
recorded for the current question. -/
theorem C5_fallback_commits_turn :
    evaluateResponse none = fallbackEvaluation ∧
    fallbackEvaluation.score = 50 ∧
    ∀ (collab : Collab) (ctx : ConversationContext) (text : String)
      (q : Question),
      collab.aiEval = none →
      getCurrentQuestion ctx = some q →
      (processResponse collab ctx text).1.response.score = 50 ∧
      (∃ suffix, (processResponse collab ctx text).2.conversationHistory =
        ctx.conversationHistory ++ ("user", text) :: suffix) ∧
      (lookupResponse (processResponse collab ctx text).2.responses q.id).isSome =
        true := by
  refine ⟨rfl, rfl, ?_⟩
  intro collab ctx text q hnone hq
  refine ⟨?_, processResponse_history collab ctx text, ?_⟩
  · rw [processResponse_turn_response collab ctx text q hq]
    dsimp only []
    rw [hnone]
    rfl
  · rw [processResponse_responses, hq]
    dsimp only []
    rw [lookupResponse_setResponse_self]
    rfl

/-- Witness for C5 amended at the concrete failing turn. -/
theorem C5_fallback_commits_turn_witness :
    (processResponse failCollab freshCtx longAnswer).1.response.score = 50 :=
  (C5_fallback_commits_turn.2.2 failCollab freshCtx longAnswer qOne rfl
    (by decide)).1

/-- C6 counterexample: answering again after a follow-up (existing
entry with score 40, `followUpsAsked = 1`) with a strong second answer
(evaluated at 90) leaves the old record in `responses` — the first
answer's text and score persist and the per-assessment mean uses 40,
not 90; the claim that the last answer's text/score are persisted is
false. -/
theorem C6_counterexample :
    lookupResponse (processResponse strongCollab repeatCtx longAnswer).2.responses
      "q1" = some firstRecord ∧
    firstRecord.text ≠ longAnswer ∧
    firstRecord.score = 40 ∧
    (evaluateResponse strongCollab.aiEval).score = 90 ∧
    scoreBreakdownOf repeatCtx.assessments
      (processResponse strongCollab repeatCtx longAnswer).2.responses =
      [("a1", 40)] := by decide

/-- C6 amended: when a question already has an entry in `responses`,
`processResponse` stores that existing record back unchanged (text,
score and evaluation of the first answer included), only bumping
`followUpsAsked` when a further follow-up is asked; the new answer's
text and score are not merged into the in-memory record. -/
theorem C6_existing_record_preserved :
    ∀ (collab : Collab) (ctx : ConversationContext) (text : String)
      (q : Question) (r : ResponseRecord),
      getCurrentQuestion ctx = some q →
      lookupResponse ctx.responses q.id = some r →
      lookupResponse (processResponse collab ctx text).2.responses q.id =
        some (if needsFollowUp (evaluateResponse collab.aiEval)
                r.followUpsAsked text.length
              then { r with followUpsAsked := r.followUpsAsked + 1 }
              else r) :=
  fun collab ctx text q r hq hr =>
    processResponse_existing_record collab ctx text q r hq hr

/-- Witness for C6 amended at the concrete repeated answer. -/
theorem C6_existing_record_preserved_witness :
    lookupResponse (processResponse strongCollab repeatCtx longAnswer).2.responses
      qOne.id =
      some (if needsFollowUp (evaluateResponse strongCollab.aiEval)
              firstRecord.followUpsAsked longAnswer.length
            then { firstRecord with
              followUpsAsked := firstRecord.followUpsAsked + 1 }
            else firstRecord) :=
  C6_existing_record_preserved strongCollab repeatCtx longAnswer qOne
    firstRecord (by decide) (by decide)

/-- C2 counterexample: completing the one-question session succeeds and
deletes it from the store; the immediate second call on the resulting
store does not return the previous `FinalSummary` but throws
`Session not found or expired`. -/
theorem C2_counterexample :
    completeInterview none doneStore "s3" = Except.ok (doneSummary, []) ∧
    completeInterview none [] "s3" =
      Except.error "Session not found or expired" := by decide

/-- C2 amended: `completeInterview` is not idempotent — it deletes the
session on success, so the session is gone from the store and any
second call for the same session id fails with
`Session not found or expired` instead of returning the stored
summary. -/
theorem C2_second_completion_errors :
    ∀ (chat chat2 : Option String) (store : SessionStore) (sid : String)
      (s : InterviewSummary) (store2 : SessionStore),
      completeInterview chat store sid = Except.ok (s, store2) →
      storeGet store2 sid = none ∧
      completeInterview chat2 store2 sid =
        Except.error "Session not found or expired" := by
  intro chat chat2 store sid s store2 h
  have herr := completeInterview_second_call chat chat2 store sid s store2 h
  refine ⟨?_, herr⟩
  unfold completeInterview at h
  cases hg : storeGet store sid with
  | none => rw [hg] at h; exact Except.noConfusion h
  | some ctx =>
    rw [hg] at h
    have hstore2 : store2 = storeDelete store sid := by
      injection h with h1
      exact (congrArg Prod.snd h1).symm
    rw [hstore2, storeGet_storeDelete]

/-- Witness for C2 amended at the concrete completed session. -/
theorem C2_second_completion_errors_witness :
    storeGet ([] : SessionStore) "s3" = none ∧
    completeInterview none ([] : SessionStore) "s3" =
      Except.error "Session not found or expired" :=
  C2_second_completion_errors none none doneStore "s3" doneSummary []
    (by decide)

/-- C1 counterexample: a fully answered plan of two weight-50
assessments (one question scored 100; two questions scored 0) has
non-empty responses, yet `completeInterview` reports overall 33 — the
rounded plain mean of the three scores — while the spec's renormalized
weighted average of per-assessment scores is 50. -/
theorem C1_counterexample :
    weightedCtx.responses ≠ [] ∧
    (match completeInterview none weightedStore "s2" with
     | Except.ok (s, _) => s.overallScore
     | Except.error _ => -1) = 33 ∧
    specOverallScore weightedCtx.assessments weightedCtx.responses = 50 := by
  decide

/-- C1 amended: the overall score returned by `completeInterview` is the
plain arithmetic mean of all recorded response scores rounded to the
nearest integer — assessment weights play no part; for the scenario
plan (one assessment of weight 100, three questions each scored 80,
run end to end through `processResponse`) the overall score is 80 and
`scoreBreakdown` has exactly one entry equal to 80, agreeing with the
claim there. -/
theorem C1_overall_is_unweighted_mean :
    (∀ (chat : Option String) (store : SessionStore) (sid : String)
       (ctx : ConversationContext),
      storeGet store sid = some ctx →
      (completeInterview chat store sid).toOption.map
          (fun p => (p.1.overallScore, p.1.scoreBreakdown)) =
        some (overallScoreOf ctx.responses,
          scoreBreakdownOf ctx.assessments ctx.responses)) ∧
    scenarioStep1.1.isComplete = false ∧
    scenarioStep2.1.isComplete = false ∧
    scenarioStep3.1.isComplete = true ∧
    completeInterview none [("s1", scenarioStep3.2)] "s1" =
      Except.ok (scenarioSummary, []) ∧
    scenarioSummary.overallScore = 80 ∧
    scenarioSummary.scoreBreakdown = [("a1", 80)] := by
  refine ⟨?_, by decide, by decide, by decide, by decide, by decide, by decide⟩
  intro chat store sid ctx h
  rcases completeInterview_ok chat store sid ctx h with ⟨s, hok, h1, h2⟩
  rw [hok]
  simp [Except.toOption, h1, h2]

/-- Witness for the general part of C1 amended at a concrete store. -/
theorem C1_overall_is_unweighted_mean_witness :
    (completeInterview none doneStore "s3").toOption.map
        (fun p => (p.1.overallScore, p.1.scoreBreakdown)) =
      some (overallScoreOf doneCtx.responses,
        scoreBreakdownOf doneCtx.assessments doneCtx.responses) :=
  C1_overall_is_unweighted_mean.1 none doneStore "s3" doneCtx (by decide)
